import Mathlib

/-!
Shallow embedding of the workflow core of the UIC marketplace
(apps/accounts and apps/projects): verification of students and
companies by universities, project lifecycle, applications,
milestone/deliverable review, and the derived progress percentage.

Entities are translated from `apps/accounts/models.py` and
`apps/projects/models.py`; only workflow-relevant fields are kept
(text/file boilerplate that no transition reads or writes is omitted).
Each view's business logic (`test_func`, `post`, `form_valid`) from
`apps/accounts/views.py` and `apps/projects/views.py` is translated as a
pure function: the database row becomes an explicit value, `save()`
becomes returning the updated value, `timezone.now()` becomes an
explicit `now : Nat` parameter, nullable foreign keys become
`Option Nat`, and Django's `get_object_or_404(..., filter)` becomes an
`Option`-returning lookup.  A `transaction.atomic` block is one pure
transition.
-/

namespace UIC

/-- Student/Company `verification_status` choices (accounts/models.py). -/
inductive VerificationStatus
  | pending
  | approved
  | rejected
deriving DecidableEq, Repr

/-- Project `STATUS_CHOICES` (projects/models.py).  `open` is a Lean
keyword, so the source's `open` status is spelled `open_`. -/
inductive ProjectStatus
  | draft
  | pending_review
  | rejected
  | open_
  | in_progress
  | completed
  | cancelled
deriving DecidableEq, Repr

/-- ProjectApplication `STATUS_CHOICES` (projects/models.py). -/
inductive ApplicationStatus
  | pending
  | shortlisted
  | accepted
  | rejected
  | withdrawn
deriving DecidableEq, Repr

/-- Milestone `STATUS_CHOICES` (projects/models.py). -/
inductive MilestoneStatus
  | pending
  | in_progress
  | submitted
  | approved
  | revision_required
deriving DecidableEq, Repr

/-- `Project.poster_type` choices (projects/models.py). -/
inductive PosterType
  | company
  | university
deriving DecidableEq, Repr

/-- `User.user_type` choices (accounts/models.py). -/
inductive UserType
  | student
  | company
  | university
deriving DecidableEq, Repr

/-- Student profile (accounts/models.py), workflow-relevant fields.
`university` is a nullable FK (`null=True`), `student_id` and
`university_email` are `blank=True` character fields, so the empty
string is a representable value. -/
structure Student where
  id : Nat
  university : Option Nat
  student_id : String
  university_email : String
  is_verified : Bool
  verification_status : VerificationStatus
  rejection_reason : String
  verified_by : Option Nat
  verified_at : Option Nat
deriving DecidableEq, Repr

/-- Company profile (accounts/models.py), workflow-relevant fields. -/
structure Company where
  id : Nat
  is_verified : Bool
  verification_status : VerificationStatus
  rejection_reason : String
  verified_by : Option Nat
  verified_at : Option Nat
  total_projects_posted : Nat
deriving DecidableEq, Repr

/-- University profile (accounts/models.py), workflow-relevant fields. -/
structure University where
  id : Nat
  is_verified : Bool
deriving DecidableEq, Repr

/-- Project (projects/models.py), workflow-relevant fields.  `company`
is nullable, `university` is a mandatory FK; `assigned_students` is the
many-to-many set of student ids. -/
structure Project where
  id : Nat
  poster_type : PosterType
  company : Option Nat
  university : Nat
  posted_by_university : Bool
  status : ProjectStatus
  rejection_reason : String
  assigned_students : List Nat
  submitted_for_review_at : Option Nat
  approved_at : Option Nat
deriving DecidableEq, Repr

/-- ProjectApplication (projects/models.py); `unique_together` on
(project, student). -/
structure ProjectApplication where
  id : Nat
  project : Nat
  student : Nat
  status : ApplicationStatus
  reviewed_at : Option Nat
deriving DecidableEq, Repr

/-- Milestone (projects/models.py), workflow-relevant fields. -/
structure Milestone where
  id : Nat
  project : Nat
  order : Nat
  status : MilestoneStatus
  completed_at : Option Nat
deriving DecidableEq, Repr

/-- Deliverable (projects/models.py); `milestone` is a nullable FK. -/
structure Deliverable where
  id : Nat
  project : Nat
  student : Nat
  milestone : Option Nat
  is_approved : Bool
  feedback : String
  revision_required : Bool
  reviewed_at : Option Nat
deriving DecidableEq, Repr

/-- Django M2M `add`: inserts the element if not already related
(idempotent set insert on the through table). -/
def m2mAdd (l : List Nat) (x : Nat) : List Nat :=
  if x ∈ l then l else l ++ [x]

/-- `ApplicationActionView.test_func` (projects/views.py:389-393):
company user with a profile, and the application's project's company is
that profile. -/
def ApplicationActionView_test (companyId : Nat) (project : Project) : Prop :=
  project.company = some companyId

/-- `ApplicationActionView.post` (projects/views.py:395-427), the
company-side application action handler.  The `accept` branch is one
`transaction.atomic` block: application.status/reviewed_at write,
M2M staffing add, and the conditional open→in_progress flip.  The
`reject` branch writes status/reviewed_at.  Any other action string
falls through unchanged. -/
def ApplicationActionView_post (now : Nat) (action : String)
    (application : ProjectApplication) (project : Project) :
    ProjectApplication × Project :=
  if action = "accept" then
    let application := { application with status := .accepted, reviewed_at := some now }
    let project := { project with assigned_students := m2mAdd project.assigned_students application.student }
    let project := if project.status = .open_ then { project with status := .in_progress } else project
    (application, project)
  else if action = "reject" then
    ({ application with status := .rejected, reviewed_at := some now }, project)
  else
    (application, project)

/-- `UniversityApplicationActionView.test_func` (projects/views.py:784-790):
university user whose profile owns the project and the project was
posted by the university. -/
def UniversityApplicationActionView_test (universityId : Nat) (project : Project) : Prop :=
  project.posted_by_university = true ∧ project.university = universityId

/-- `UniversityApplicationActionView.post` (projects/views.py:792-836),
the university-side application action handler.  `accept` and `reject`
are written exactly as in the company-side handler; `shortlist`
additionally sets status to shortlisted without touching
`reviewed_at`. -/
def UniversityApplicationActionView_post (now : Nat) (action : String)
    (application : ProjectApplication) (project : Project) :
    ProjectApplication × Project :=
  if action = "accept" then
    let application := { application with status := .accepted, reviewed_at := some now }
    let project := { project with assigned_students := m2mAdd project.assigned_students application.student }
    let project := if project.status = .open_ then { project with status := .in_progress } else project
    (application, project)
  else if action = "reject" then
    ({ application with status := .rejected, reviewed_at := some now }, project)
  else if action = "shortlist" then
    ({ application with status := .shortlisted }, project)
  else
    (application, project)

/-- `get_object_or_404(Project, pk=pk, university=request.user.university_profile)`
in `ProjectReviewView.post` (projects/views.py:462-466): the project is
found only when it is bound to the acting university. -/
def ProjectReviewView_get_object (universityId : Nat) (project : Project) : Option Project :=
  if project.university = universityId then some project else none

/-- `ProjectReviewView.post` (projects/views.py:461-479): approve sets
status=open and approved_at=now; reject sets status=rejected and
records the rejection reason; there is no check of the project's
current status before either write. -/
def ProjectReviewView_post (now : Nat) (action rejection_reason : String)
    (project : Project) : Project :=
  if action = "approve" then
    { project with status := .open_, approved_at := some now }
  else if action = "reject" then
    { project with status := .rejected, rejection_reason := rejection_reason }
  else
    project

/-- The acting poster in `ProjectCreateView`: a company profile or a
university profile. -/
inductive Poster
  | company (c : Company)
  | university (u : University)
deriving DecidableEq, Repr

/-- `ProjectCreateView.test_func` (projects/views.py:175-189): a company
must be verified to post; a university with a profile may always
post. -/
def ProjectCreateView_test (poster : Poster) : Bool :=
  match poster with
  | .company c => c.is_verified
  | .university _ => true

/-- `ProjectCreateView.form_valid` (projects/views.py:197-226): company
posting yields status=pending_review with submitted_for_review_at=now
and bumps the company's posted counter; university posting yields
company=none, posted_by_university=true, status=open,
approved_at=now.  `form` is the project instance built from the
submitted form. -/
def ProjectCreateView_form_valid (now : Nat) (poster : Poster) (form : Project) :
    Project × Poster :=
  match poster with
  | .company c =>
      ({ form with company := some c.id, poster_type := .company,
                   posted_by_university := false, status := .pending_review,
                   submitted_for_review_at := some now },
       .company { c with total_projects_posted := c.total_projects_posted + 1 })
  | .university u =>
      ({ form with university := u.id, poster_type := .university,
                   posted_by_university := true, company := none,
                   status := .open_, approved_at := some now },
       .university u)

/-- The whole create-project action: `test_func` gating `form_valid`.
A failed test is an authorization failure and creates nothing. -/
def ProjectCreateView_run (now : Nat) (poster : Poster) (form : Project) :
    Option (Project × Poster) :=
  if ProjectCreateView_test poster then
    some (ProjectCreateView_form_valid now poster form)
  else
    none

/-- Failure modes of `ProjectApplyView.test_func`, in the order the
checks appear in the source. -/
inductive ApplyError
  | notStudent
  | projectNotOpen
  | duplicateApplication
deriving DecidableEq, Repr

/-- `ProjectApplyView.test_func` (projects/views.py:282-300): the actor
must be a student user with a profile; the project must be open; no
application for this (project, student) pair may exist.  The student's
verification state is never consulted. -/
def ProjectApplyView_test (user_type : UserType) (profile : Option Student)
    (project : Project) (applications : List ProjectApplication) :
    Option ApplyError :=
  if user_type ≠ .student then some .notStudent
  else
    match profile with
    | none => some .notStudent
    | some s =>
      if project.status ≠ .open_ then some .projectNotOpen
      else if applications.any (fun a => a.project == project.id && a.student == s.id) then
        some .duplicateApplication
      else none

/-- `ProjectApplyView.form_valid` (projects/views.py:307-317): the new
application is bound to the project and the student's profile with
status pending. -/
def ProjectApplyView_form_valid (newId : Nat) (s : Student) (project : Project) :
    ProjectApplication :=
  { id := newId, project := project.id, student := s.id,
    status := .pending, reviewed_at := none }

/-- The whole apply action: `test_func` gating `form_valid`; a failed
test creates nothing. -/
def ProjectApplyView_run (newId : Nat) (user_type : UserType)
    (profile : Option Student) (project : Project)
    (applications : List ProjectApplication) :
    Except ApplyError ProjectApplication :=
  match ProjectApplyView_test user_type profile project applications, profile with
  | some e, _ => .error e
  | none, some s => .ok (ProjectApplyView_form_valid newId s project)
  | none, none => .error .notStudent

/-- `StudentVerificationActionView.post` (accounts/views.py:425-455).
`get_object_or_404(Student, pk=student_id, university=university)`
means the action reaches a student only when that student's university
is the acting one (`none` models the 404).  approve sets is_verified,
verification_status, verified_by and verified_at; reject sets
is_verified=false, verification_status=rejected and the rejection
reason.  Neither branch touches any other field. -/
def StudentVerificationActionView_post (now universityId : Nat)
    (action rejection_reason : String) (student : Student) : Option Student :=
  if student.university ≠ some universityId then none
  else if action = "approve" then
    some { student with is_verified := true, verification_status := .approved,
                        verified_by := some universityId, verified_at := some now }
  else if action = "reject" then
    some { student with is_verified := false, verification_status := .rejected,
                        rejection_reason := rejection_reason }
  else some student

/-- `CompanyVerificationActionView.post` (accounts/views.py:608-638).
The lookup is by pk only (any university may act on any company).
Branches mirror the student handler. -/
def CompanyVerificationActionView_post (now universityId : Nat)
    (action rejection_reason : String) (company : Company) : Company :=
  if action = "approve" then
    { company with is_verified := true, verification_status := .approved,
                   verified_by := some universityId, verified_at := some now }
  else if action = "reject" then
    { company with is_verified := false, verification_status := .rejected,
                   rejection_reason := rejection_reason }
  else company

/-- Student branch of `ProfileEditView.form_valid` (accounts/views.py:135-152):
after a profile edit, an unverified student's status is reset to
pending; a verified student's fields are saved as edited, status
untouched. -/
def ProfileEditView_form_valid_student (profile : Student) : Student :=
  if profile.is_verified = false then
    { profile with verification_status := .pending }
  else profile

/-- The deliverable after the approve branch's field writes
(projects/views.py:669-673). -/
def approvedUpdate (now : Nat) (feedback : String) (d : Deliverable) : Deliverable :=
  { d with is_approved := true, revision_required := false,
           feedback := feedback, reviewed_at := some now }

/-- The deliverable after the revision branch's field writes
(projects/views.py:687-691). -/
def revisionUpdate (now : Nat) (feedback : String) (d : Deliverable) : Deliverable :=
  { d with is_approved := false, revision_required := true,
           feedback := feedback, reviewed_at := some now }

/-- `deliverable.save()`: replace the row with the given id in the
stored set of deliverables. -/
def saveDeliverable (deliverables : List Deliverable) (d : Deliverable) :
    List Deliverable :=
  deliverables.map (fun x => if x.id = d.id then d else x)

/-- `deliverable.milestone.deliverables.all()`: the deliverables
currently linked to the milestone, read back from the store after the
save. -/
def milestoneDeliverables (milestoneId : Nat) (deliverables : List Deliverable) :
    List Deliverable :=
  deliverables.filter (fun d => d.milestone = some milestoneId)

/-- `ReviewDeliverableView.post` (projects/views.py:661-699).  `milestone`
is the milestone row the deliverable's nullable FK may point at;
`deliverables` is the stored set of deliverable rows.  On approve, the
deliverable is saved approved and, when linked to the milestone, the
milestone becomes approved with completed_at=now exactly when every
deliverable currently linked to it is approved (recomputed from the
store after the save).  On revision, the deliverable is saved
revision_required and a linked milestone's status becomes
revision_required unconditionally. -/
def ReviewDeliverableView_post (now : Nat) (action feedback : String)
    (deliverable : Deliverable) (milestone : Milestone)
    (deliverables : List Deliverable) : List Deliverable × Milestone :=
  if action = "approve" then
    let deliverable := approvedUpdate now feedback deliverable
    let deliverables := saveDeliverable deliverables deliverable
    if deliverable.milestone = some milestone.id then
      if (milestoneDeliverables milestone.id deliverables).all (fun d => d.is_approved) then
        (deliverables, { milestone with status := .approved, completed_at := some now })
      else
        (deliverables, milestone)
    else
      (deliverables, milestone)
  else if action = "revision" then
    let deliverable := revisionUpdate now feedback deliverable
    let deliverables := saveDeliverable deliverables deliverable
    if deliverable.milestone = some milestone.id then
      (deliverables, { milestone with status := .revision_required })
    else
      (deliverables, milestone)
  else
    (deliverables, milestone)

/-- Progress computation in `ProjectWorkspaceView.get_context_data`
(projects/views.py:544-546): `(approved / total * 100) if total > 0
else 0`, over the project's milestones. -/
def ProjectWorkspaceView_progress_percentage (milestones : List Milestone) : ℚ :=
  let total_milestones := milestones.length
  let approved_milestones := (milestones.filter (fun m => m.status = .approved)).length
  if total_milestones > 0 then
    (approved_milestones : ℚ) / (total_milestones : ℚ) * 100
  else 0

/-- Adding an element with `m2mAdd` always leaves it in the list. -/
theorem mem_m2mAdd (l : List Nat) (x : Nat) : x ∈ m2mAdd l x := by
  unfold m2mAdd
  split
  · assumption
  · exact List.mem_append_right _ (List.mem_singleton.mpr rfl)

/-- The accept branch of the company-side handler, as a single record
equation: application becomes accepted and reviewed now, the student is
staffed, and the project status flips open→in_progress and is otherwise
unchanged. -/
theorem ApplicationActionView_accept_eq (now : Nat)
    (application : ProjectApplication) (project : Project) :
    ApplicationActionView_post now "accept" application project =
      ({ application with status := .accepted, reviewed_at := some now },
       { project with
           assigned_students := m2mAdd project.assigned_students application.student,
           status := if project.status = .open_ then .in_progress else project.status }) := by
  by_cases h : project.status = .open_ <;>
    simp [ApplicationActionView_post, h]

/-- C1: after an accept via either the company-side or the
university-side handler, the application has status accepted and
reviewed_at = now, the applying student is in the project's
assigned_students, the project status is in_progress when it was open
before and unchanged otherwise, and the two handlers produce the very
same pair.  Both handlers perform these writes inside one
`transaction.atomic` block, which the embedding models as a single pure
transition, so no intermediate state is observable and a mid-sequence
failure persists none of the writes. -/
theorem accept_application_postconditions (now : Nat)
    (application : ProjectApplication) (project : Project) :
    (ApplicationActionView_post now "accept" application project).1.status = .accepted ∧
    (ApplicationActionView_post now "accept" application project).1.reviewed_at = some now ∧
    application.student ∈ (ApplicationActionView_post now "accept" application project).2.assigned_students ∧
    (ApplicationActionView_post now "accept" application project).2.status =
      (if project.status = .open_ then .in_progress else project.status) ∧
    UniversityApplicationActionView_post now "accept" application project =
      ApplicationActionView_post now "accept" application project := by
  rw [ApplicationActionView_accept_eq]
  refine ⟨rfl, rfl, mem_m2mAdd _ _, rfl, ?_⟩
  by_cases h : project.status = .open_ <;>
    simp [UniversityApplicationActionView_post, h]

/-- C10: neither application-action handler guards on the application's
prior status: starting from an arbitrary status, accept succeeds and
yields an accepted, staffed application, and reject succeeds and yields
a rejected one, on both the company-side and the university-side path;
there is no state-conflict failure branch in either handler. -/
theorem application_actions_ignore_prior_status (now : Nat) (st : ApplicationStatus)
    (application : ProjectApplication) (project : Project) :
    (ApplicationActionView_post now "accept" { application with status := st } project).1.status = .accepted ∧
    application.student ∈
      (ApplicationActionView_post now "accept" { application with status := st } project).2.assigned_students ∧
    (ApplicationActionView_post now "reject" { application with status := st } project).1.status = .rejected ∧
    (UniversityApplicationActionView_post now "accept" { application with status := st } project).1.status = .accepted ∧
    (UniversityApplicationActionView_post now "reject" { application with status := st } project).1.status = .rejected := by
  rw [ApplicationActionView_accept_eq]
  refine ⟨rfl, mem_m2mAdd _ _, rfl, ?_, rfl⟩
  by_cases h : project.status = .open_ <;>
    simp [UniversityApplicationActionView_post, h]

/-- An application used in concrete checks below. -/
def examplePendingApplication : ProjectApplication :=
  { id := 20, project := 3, student := 7, status := .pending, reviewed_at := none }

/-- A university-posted open project used in concrete checks below. -/
def exampleOpenProject : Project :=
  { id := 3, poster_type := .university, company := none, university := 1,
    posted_by_university := true, status := .open_, rejection_reason := "",
    assigned_students := [], submitted_for_review_at := none, approved_at := none }

/-- C8 counterexample: the two action paths are not identical over the
full action set {accept, reject, shortlist}.  On action shortlist the
company-side handler has no branch and leaves the pending application
pending, while the university-side handler sets it to shortlisted, so
the two handlers return different states on the same input. -/
theorem shortlist_paths_differ :
    (ApplicationActionView_post 2 "shortlist" examplePendingApplication exampleOpenProject).1.status = .pending ∧
    (UniversityApplicationActionView_post 2 "shortlist" examplePendingApplication exampleOpenProject).1.status = .shortlisted ∧
    ApplicationActionView_post 2 "shortlist" examplePendingApplication exampleOpenProject ≠
      UniversityApplicationActionView_post 2 "shortlist" examplePendingApplication exampleOpenProject := by
  refine ⟨rfl, rfl, ?_⟩
  decide

/-- C8 amended: the company-side and university-side application action
handlers have identical transition semantics for accept and for reject
(the same resulting application and project state through either path);
they differ only on shortlist, which the company-side handler does not
implement (it leaves application and project unchanged) while the
university-side handler sets status=shortlisted without touching
reviewed_at. -/
theorem application_paths_agree_on_accept_reject (now : Nat)
    (application : ProjectApplication) (project : Project) :
    ApplicationActionView_post now "accept" application project =
      UniversityApplicationActionView_post now "accept" application project ∧
    ApplicationActionView_post now "reject" application project =
      UniversityApplicationActionView_post now "reject" application project ∧
    ApplicationActionView_post now "shortlist" application project = (application, project) ∧
    UniversityApplicationActionView_post now "shortlist" application project =
      ({ application with status := .shortlisted }, project) :=
  ⟨rfl, rfl, rfl, rfl⟩

/-- C9: the reported progress percentage is 0 for a project with no
milestones and 100 × approved / total otherwise; the division is
guarded by the total > 0 test, so it never divides by zero. -/
theorem progress_percentage_formula (milestones : List Milestone) :
    ProjectWorkspaceView_progress_percentage milestones =
      (if milestones.length = 0 then (0 : ℚ)
       else 100 * ((milestones.filter (fun m => m.status = .approved)).length : ℚ) /
            (milestones.length : ℚ)) := by
  by_cases h : milestones.length = 0
  · simp [ProjectWorkspaceView_progress_percentage, h]
  · have h' : 0 < milestones.length := Nat.pos_of_ne_zero h
    simp [ProjectWorkspaceView_progress_percentage, h, h']
    ring

/-- A company-posted project that has already run to completion. -/
def exampleCompletedProject : Project :=
  { id := 4, poster_type := .company, company := some 2, university := 1,
    posted_by_university := false, status := .completed, rejection_reason := "",
    assigned_students := [7], submitted_for_review_at := some 1, approved_at := some 2 }

/-- C5 counterexample: the review action is not restricted to projects
in pending_review.  `ProjectReviewView.post` checks only ownership, so
approving a completed project succeeds and resets it to open with a
fresh approved_at. -/
theorem review_approves_completed_project :
    exampleCompletedProject.status = .completed ∧
    ProjectReviewView_get_object 1 exampleCompletedProject = some exampleCompletedProject ∧
    (ProjectReviewView_post 9 "approve" "" exampleCompletedProject).status = .open_ ∧
    (ProjectReviewView_post 9 "approve" "" exampleCompletedProject).approved_at = some 9 :=
  ⟨rfl, rfl, rfl, rfl⟩

/-- C5 amended: the review action is performable only by the owning
University (the lookup succeeds exactly when the project is bound to
the acting university) but on a project in any status, not only
pending_review; approve sets status=open and approved_at=now, reject
sets status=rejected and records the given rejection reason. -/
theorem project_review_effects (now universityId : Nat) (reason : String)
    (project : Project) :
    (ProjectReviewView_get_object universityId project = some project ↔
      project.university = universityId) ∧
    ProjectReviewView_post now "approve" reason project =
      { project with status := .open_, approved_at := some now } ∧
    ProjectReviewView_post now "reject" reason project =
      { project with status := .rejected, rejection_reason := reason } := by
  refine ⟨?_, rfl, rfl⟩
  constructor
  · intro h
    by_cases hc : project.university = universityId
    · exact hc
    · unfold ProjectReviewView_get_object at h
      simp [hc] at h
  · intro h
    unfold ProjectReviewView_get_object
    simp [h]

/-- C6: project creation paths.  An unverified company fails the
authorization test and nothing is created; a verified company's project
starts in pending_review with submitted_for_review_at=now (and the
company's posted counter is bumped); a university's own project starts
open with approved_at=now, company=none and posted_by_university
set. -/
theorem project_create_paths (now : Nat) (c : Company) (u : University)
    (form : Project) :
    (c.is_verified = false → ProjectCreateView_run now (.company c) form = none) ∧
    (c.is_verified = true →
      ProjectCreateView_run now (.company c) form =
        some ({ form with company := some c.id, poster_type := .company,
                          posted_by_university := false, status := .pending_review,
                          submitted_for_review_at := some now },
              .company { c with total_projects_posted := c.total_projects_posted + 1 })) ∧
    ProjectCreateView_run now (.university u) form =
      some ({ form with university := u.id, poster_type := .university,
                        posted_by_university := true, company := none,
                        status := .open_, approved_at := some now },
            .university u) := by
  refine ⟨?_, ?_, rfl⟩ <;>
    · intro h
      simp [ProjectCreateView_run, ProjectCreateView_test, ProjectCreateView_form_valid, h]

/-- A company that has not been verified. -/
def exampleUnverifiedCompany : Company :=
  { id := 2, is_verified := false, verification_status := .pending,
    rejection_reason := "", verified_by := none, verified_at := none,
    total_projects_posted := 0 }

/-- A verified company. -/
def exampleVerifiedCompany : Company :=
  { id := 5, is_verified := true, verification_status := .approved,
    rejection_reason := "", verified_by := some 1, verified_at := some 1,
    total_projects_posted := 3 }

/-- A platform-verified university. -/
def exampleUniversity : University := { id := 1, is_verified := true }

/-- A project instance as built from the create form, before
`form_valid` stamps the poster fields. -/
def exampleProjectForm : Project :=
  { id := 11, poster_type := .company, company := none, university := 1,
    posted_by_university := false, status := .draft, rejection_reason := "",
    assigned_students := [], submitted_for_review_at := none, approved_at := none }

/-- Concrete instantiation of the two company branches of the
creation-path theorem. -/
theorem project_create_paths_witness :
    ProjectCreateView_run 3 (.company exampleUnverifiedCompany) exampleProjectForm = none ∧
    ProjectCreateView_run 3 (.company exampleVerifiedCompany) exampleProjectForm =
      some ({ exampleProjectForm with company := some exampleVerifiedCompany.id,
                                      poster_type := .company,
                                      posted_by_university := false,
                                      status := .pending_review,
                                      submitted_for_review_at := some 3 },
            .company { exampleVerifiedCompany with
                         total_projects_posted := exampleVerifiedCompany.total_projects_posted + 1 }) :=
  ⟨(project_create_paths 3 exampleUnverifiedCompany exampleUniversity exampleProjectForm).1 rfl,
   (project_create_paths 3 exampleVerifiedCompany exampleUniversity exampleProjectForm).2.1 rfl⟩

/-- A student whose verification was rejected with a recorded reason. -/
def exampleRejectedStudent : Student :=
  { id := 9, university := some 1, student_id := "S9",
    university_email := "s9@uni.example", is_verified := false,
    verification_status := .rejected, rejection_reason := "Incomplete documents",
    verified_by := none, verified_at := none }

/-- C7 counterexample: the approve action does not clear
rejection_reason.  Approving a previously rejected student yields an
approved student whose rejection_reason is still the old non-empty
text. -/
theorem approve_keeps_rejection_reason :
    StudentVerificationActionView_post 6 1 "approve" "" exampleRejectedStudent =
      some { exampleRejectedStudent with is_verified := true,
                                         verification_status := .approved,
                                         verified_by := some 1, verified_at := some 6 } ∧
    ((StudentVerificationActionView_post 6 1 "approve" "" exampleRejectedStudent).getD
        exampleRejectedStudent).rejection_reason = "Incomplete documents" ∧
    "Incomplete documents" ≠ "" := by
  refine ⟨rfl, rfl, ?_⟩
  decide

/-- C7 amended: the approve action, on both Student and Company
targets, sets is_verified=true, verification_status=approved,
verified_by to the acting university and verified_at=now, and leaves
every other field — in particular rejection_reason — unchanged (it does
not clear it).  The student action additionally requires the student to
belong to the acting university. -/
theorem verification_approve_effects (now universityId : Nat) (reason : String)
    (s : Student) (c : Company) (hs : s.university = some universityId) :
    StudentVerificationActionView_post now universityId "approve" reason s =
      some { s with is_verified := true, verification_status := .approved,
                    verified_by := some universityId, verified_at := some now } ∧
    CompanyVerificationActionView_post now universityId "approve" reason c =
      { c with is_verified := true, verification_status := .approved,
               verified_by := some universityId, verified_at := some now } := by
  constructor
  · unfold StudentVerificationActionView_post
    simp [hs]
  · rfl

/-- Concrete instantiation of the approve-effects theorem. -/
theorem verification_approve_effects_witness :
    StudentVerificationActionView_post 6 1 "approve" "" exampleRejectedStudent =
      some { exampleRejectedStudent with is_verified := true,
                                         verification_status := .approved,
                                         verified_by := some 1, verified_at := some 6 } ∧
    CompanyVerificationActionView_post 6 1 "approve" "" exampleUnverifiedCompany =
      { exampleUnverifiedCompany with is_verified := true,
                                      verification_status := .approved,
                                      verified_by := some 1, verified_at := some 6 } :=
  verification_approve_effects 6 1 "" exampleRejectedStudent exampleUnverifiedCompany rfl

/-- A pending student of university 1 with empty student_id and empty
university_email — representable, since both model fields are
`blank=True`. -/
def exampleStudentEmptyId : Student :=
  { id := 8, university := some 1, student_id := "", university_email := "",
    is_verified := false, verification_status := .pending, rejection_reason := "",
    verified_by := none, verified_at := none }

/-- The result of approving that student. -/
def exampleApprovedStudent : Student :=
  { exampleStudentEmptyId with
    is_verified := true,
    verification_status := .approved,
    verified_by := some 1,
    verified_at := some 5 }

/-- C2 counterexample: the approve action checks only that the student
belongs to the acting university, never student_id or
university_email, so it produces an approved Student with
student_id = "" and university_email = "" — violating the claimed
invariant. -/
theorem approve_student_with_empty_id :
    StudentVerificationActionView_post 5 1 "approve" "" exampleStudentEmptyId =
      some exampleApprovedStudent ∧
    exampleApprovedStudent.verification_status = .approved ∧
    exampleApprovedStudent.student_id = "" ∧
    exampleApprovedStudent.university_email = "" :=
  ⟨rfl, rfl, rfl, rfl⟩

/-- C2 amended: whenever the university's approve action succeeds (the
ownership-filtered lookup found the student), the resulting student is
approved, is_verified, and has a non-null university — namely the
acting one; the action gives no guarantee about student_id or
university_email, and the dashboard handles approved students with
missing fields by re-routing to profile completion rather than by
keeping the data invariant. -/
theorem approve_student_ensures_university (now universityId : Nat)
    (reason : String) (s s' : Student)
    (h : StudentVerificationActionView_post now universityId "approve" reason s = some s') :
    s'.verification_status = .approved ∧ s'.is_verified = true ∧
    s'.university = some universityId := by
  by_cases hu : s.university = some universityId
  · unfold StudentVerificationActionView_post at h
    rw [if_neg (by simp [hu])] at h
    simp at h
    refine ⟨?_, ?_, ?_⟩ <;> rw [← h]
    exact hu
  · unfold StudentVerificationActionView_post at h
    rw [if_pos (by simp [hu])] at h
    exact absurd h (by simp)

/-- Concrete instantiation of the amended approve theorem. -/
theorem approve_student_ensures_university_witness :
    exampleApprovedStudent.verification_status = .approved ∧
    exampleApprovedStudent.is_verified = true ∧
    exampleApprovedStudent.university = some 1 :=
  approve_student_ensures_university 5 1 "" exampleStudentEmptyId
    exampleApprovedStudent rfl

/-- A student with a complete profile who is nevertheless unverified
(verification still pending). -/
def exampleUnverifiedStudent : Student :=
  { id := 7, university := some 1, student_id := "S1",
    university_email := "s1@uni.example", is_verified := false,
    verification_status := .pending, rejection_reason := "",
    verified_by := none, verified_at := none }

/-- C3 counterexample: `ProjectApplyView.test_func` never consults the
student's verification state, so an unverified, pending student's
application to an open project succeeds and creates a pending
application — the claim's "verified Student" precondition is not
enforced. -/
theorem apply_unverified_student_succeeds :
    exampleUnverifiedStudent.is_verified = false ∧
    exampleUnverifiedStudent.verification_status = .pending ∧
    ProjectApplyView_run 10 .student (some exampleUnverifiedStudent)
        exampleOpenProject [] =
      .ok { id := 10, project := 3, student := 7, status := .pending,
            reviewed_at := none } :=
  ⟨rfl, rfl, rfl⟩

/-- C3 amended: applying creates a new pending Application for the
(project, student) pair exactly when the actor is a Student with a
profile (verified or not), the project is open, and no application for
the pair exists; a non-open project fails with the project-not-open
error (this check precedes the duplicate check, so it wins when both
would fail), an existing pair on an open project fails with the
duplicate-application error, and a non-student actor fails with the
authorization error — in every failure case nothing is created. -/
theorem apply_characterization (newId : Nat) (user_type : UserType)
    (s : Student) (project : Project)
    (applications : List ProjectApplication) :
    (ProjectApplyView_run newId user_type (some s) project applications =
        .ok (ProjectApplyView_form_valid newId s project) ↔
      user_type = .student ∧ project.status = .open_ ∧
        applications.any (fun a => a.project == project.id && a.student == s.id) = false) ∧
    (user_type = .student → project.status ≠ .open_ →
      ProjectApplyView_run newId user_type (some s) project applications =
        .error .projectNotOpen) ∧
    (user_type = .student → project.status = .open_ →
      applications.any (fun a => a.project == project.id && a.student == s.id) = true →
      ProjectApplyView_run newId user_type (some s) project applications =
        .error .duplicateApplication) ∧
    (user_type ≠ .student →
      ProjectApplyView_run newId user_type (some s) project applications =
        .error .notStudent) := by
  unfold ProjectApplyView_run ProjectApplyView_test
  by_cases h1 : user_type = .student
  · by_cases h2 : project.status = .open_
    · by_cases h3 : applications.any (fun a => a.project == project.id && a.student == s.id) = true
      · simp [h1, h2, h3]
      · rw [Bool.not_eq_true] at h3
        simp [h1, h2, h3]
    · simp [h1, h2]
  · simp [h1]

/-- Concrete instantiation of the apply characterization: the success
case at an unverified student, and the not-open failure case. -/
theorem apply_characterization_witness :
    ProjectApplyView_run 10 .student (some exampleUnverifiedStudent)
        exampleOpenProject [] =
      .ok (ProjectApplyView_form_valid 10 exampleUnverifiedStudent exampleOpenProject) ∧
    ProjectApplyView_run 10 .student (some exampleUnverifiedStudent)
        exampleCompletedProject [] =
      .error .projectNotOpen :=
  ⟨(apply_characterization 10 .student exampleUnverifiedStudent
      exampleOpenProject []).1.mpr ⟨rfl, rfl, rfl⟩,
   (apply_characterization 10 .student exampleUnverifiedStudent
      exampleCompletedProject []).2.1 rfl (by decide)⟩

/-- C4: reviewing a deliverable linked to a milestone.  On approve, the
resulting milestone is the approved one with completed_at=now exactly
when every deliverable currently linked to the milestone — in the
stored set as it stands after this deliverable's approval is saved —
has is_approved = true, and is unchanged otherwise; on revision the
milestone's status becomes revision_required unconditionally,
regardless of the other deliverables' state. -/
theorem review_deliverable_milestone_aggregation (now : Nat) (feedback : String)
    (d : Deliverable) (m : Milestone) (deliverables : List Deliverable)
    (h : d.milestone = some m.id) :
    (ReviewDeliverableView_post now "approve" feedback d m deliverables).2 =
      (if (milestoneDeliverables m.id
            (saveDeliverable deliverables (approvedUpdate now feedback d))).all
          (fun x => x.is_approved) then
        { m with status := .approved, completed_at := some now }
       else m) ∧
    (ReviewDeliverableView_post now "revision" feedback d m deliverables).2.status =
      .revision_required := by
  have hm : (approvedUpdate now feedback d).milestone = some m.id := h
  have hr : (revisionUpdate now feedback d).milestone = some m.id := h
  constructor
  · simp only [ReviewDeliverableView_post]
    simp [hm]
    split <;> simp
  · simp [ReviewDeliverableView_post, hr]

/-- A deliverable linked to milestone 40. -/
def exampleDeliverable : Deliverable :=
  { id := 30, project := 3, student := 7, milestone := some 40,
    is_approved := false, feedback := "", revision_required := false,
    reviewed_at := none }

/-- Milestone 40, awaiting review of its submitted work. -/
def exampleMilestone : Milestone :=
  { id := 40, project := 3, order := 1, status := .submitted,
    completed_at := none }

/-- Concrete instantiation of the milestone-aggregation theorem. -/
theorem review_deliverable_milestone_aggregation_witness :
    (ReviewDeliverableView_post 9 "approve" "fine" exampleDeliverable exampleMilestone
        [exampleDeliverable]).2 =
      (if (milestoneDeliverables exampleMilestone.id
            (saveDeliverable [exampleDeliverable]
              (approvedUpdate 9 "fine" exampleDeliverable))).all
          (fun x => x.is_approved) then
        { exampleMilestone with status := .approved, completed_at := some 9 }
       else exampleMilestone) ∧
    (ReviewDeliverableView_post 9 "revision" "fine" exampleDeliverable exampleMilestone
        [exampleDeliverable]).2.status = .revision_required := by
  exact review_deliverable_milestone_aggregation 9 "fine" exampleDeliverable
    exampleMilestone [exampleDeliverable] rfl

end UIC
